import Mathlib

/-!
Verification development for the boot-environment (BE) lifecycle engine of
`usr/src/lib/libbe/be_create.c`.  The storage substrate (ZFS) is modelled as an
explicit state: a list of pools, an association list of filesystem datasets
with their properties, and a list of snapshot names.  Dataset and snapshot
names are lists of characters, mirroring the C code's string manipulation
(`strncmp`, pointer offsets, `strrchr`).  Substrate operations that the code
relies on (create, clone, snapshot, destroy, receive) are deterministic
functions of the state, except where a claim is specifically about a substrate
failure, in which case the failure is injected through an environment oracle.
-/

/-- Strings are modelled as lists of characters, so that the C code's pointer
arithmetic (suffix after a prefix, split at a character) is exact. -/
abbrev Str := List Char

/-- Property lists model `nvlist_t` with `NV_UNIQUE_NAME`: an association list
where adding a string replaces any existing pair with the same key. -/
abbrev Props := List (Str × Str)

def slashChar : Char := '/'

def atChar : Char := '@'

def mountpointKey : Str := ("mountpoint").toList

def canmountKey : Str := ("canmount").toList

/-- Value of `ZFS_MOUNTPOINT_LEGACY`. -/
def legacyVal : Str := ("legacy").toList

def noautoVal : Str := ("noauto").toList

def offVal : Str := ("off").toList

/-- Modelled from the spec: `BE_ERR_EXISTS` is declared in `libbe.h`, which is
not part of the sources; it is the distinguished "already exists" code
returned by `be_clone_fs_callback`, distinct from 0 (success) and 1 (generic
failure). -/
def BE_ERR_EXISTS : Nat := 2

/-- `nvlist_add_string` under `NV_UNIQUE_NAME`: replaces an existing pair with
the same name. -/
def nvlistAddString (l : Props) (k v : Str) : Props :=
  l.filter (fun e => !(e.1 == k)) ++ [(k, v)]

/-- `nvlist_remove_all` for a name. -/
def nvlistRemoveAll (l : Props) (k : Str) : Props :=
  l.filter (fun e => !(e.1 == k))

/-- Lookup of a string property in an nvlist. -/
def nvlistLookup (l : Props) (k : Str) : Option Str :=
  (l.find? (fun e => e.1 == k)).map Prod.snd

/-- C `strncmp`, comparing at most `n` characters; the strings contain no NUL
characters, and a shorter string is treated as ending in NUL. -/
def strncmp : Str → Str → Nat → Int
  | _, _, 0 => 0
  | [], [], _ + 1 => 0
  | [], _ :: _, _ + 1 => -1
  | _ :: _, [], _ + 1 => 1
  | a :: as, b :: bs, n + 1 =>
    if a = b then strncmp as bs n else if a < b then -1 else 1

/-- Index of the last occurrence of a character (C `strrchr`). -/
def strrchrIdx : Str → Char → Option Nat
  | [], _ => none
  | a :: as, c =>
    match strrchrIdx as c with
    | some i => some (i + 1)
    | none => if a = c then some 0 else none

/-- `be_get_snap`: split a snapshot dataset name at the last `@` into the
dataset portion and the (non-empty) snapshot name.  The C function edits the
buffer in place; the model returns the two pieces, or `none` for the failure
return 1 (no `@`, or `@` is the final character), in which case the C code
leaves the input and the out-pointer untouched. -/
def be_get_snap (origin : Str) : Option (Str × Str) :=
  match strrchrIdx origin atChar with
  | none => none
  | some i =>
    if origin.drop (i + 1) = [] then none
    else some (origin.take i, origin.drop (i + 1))

/-- Modelled from the spec: `be_make_container_ds` (naming utility, not among
the sources) derives the fixed per-pool BE container dataset path
`<pool>/<container-name>`. -/
def BE_CONTAINER_DS_NAME : Str := ("ROOT").toList

def be_make_container_ds (zpool : Str) : Str :=
  zpool ++ slashChar :: BE_CONTAINER_DS_NAME

/-- Modelled from the spec: `be_make_root_ds` derives a BE's root dataset path
`<pool>/<container>/<BE-name>`. -/
def be_make_root_ds (zpool be_name : Str) : Str :=
  be_make_container_ds zpool ++ slashChar :: be_name

/-- A dataset's properties as read back through `zfs_prop_get`:
mountpoint value and whether its source is `ZPROP_SRC_LOCAL`, canmount value,
where the dataset is mounted (if mounted), the origin snapshot (if the
dataset is a clone), and the BE policy property. -/
structure FsInfo where
  mountpoint : Str
  mpLocal : Bool
  canmount : Str
  mountedAt : Option Str
  origin : Option Str
  bePolicy : Option Str
deriving DecidableEq

def emptyFsInfo : FsInfo :=
  { mountpoint := [], mpLocal := false, canmount := [], mountedAt := none,
    origin := none, bePolicy := none }

/-- The visible storage namespace: pools, filesystem datasets with their
properties, and full snapshot names (`<dataset>@<snapname>`). -/
structure ZfsState where
  pools : List Str
  fs : List (Str × FsInfo)
  snaps : List Str
deriving DecidableEq

def zfs_dataset_exists (st : ZfsState) (n : Str) : Bool :=
  st.fs.any (fun e => e.1 == n)

def fsLookup (st : ZfsState) (n : Str) : Option FsInfo :=
  (st.fs.find? (fun e => e.1 == n)).map Prod.snd

def snapExists (st : ZfsState) (n : Str) : Bool :=
  st.snaps.any (fun s => s == n)

/-- `m` is an immediate child dataset of `parent`:
`m = parent ++ "/" ++ component` with a non-empty, slash-free component. -/
def isImmediateChild (parent m : Str) : Bool :=
  (parent ++ [slashChar]).isPrefixOf m &&
  decide (parent.length + 1 < m.length) &&
  ¬ (m.drop (parent.length + 1)).contains slashChar

/-- The immediate children of a dataset in the current state, in state order
(`zfs_iter_filesystems`). -/
def childNamesOf (st : ZfsState) (n : Str) : List Str :=
  (st.fs.map Prod.fst).filter (fun m => isImmediateChild n m)

def descendsOrSelf (root n : Str) : Bool :=
  n == root || (root ++ [slashChar]).isPrefixOf n

/-- Properties a freshly created dataset carries, derived from the nvlist
passed to `zfs_create` / `zfs_clone`: an explicitly passed mountpoint has
local source, an absent one is inherited. -/
def infoFromProps (props : Props) (origin : Option Str) : FsInfo :=
  { mountpoint := (nvlistLookup props mountpointKey).getD []
  , mpLocal := (nvlistLookup props mountpointKey).isSome
  , canmount := (nvlistLookup props canmountKey).getD []
  , mountedAt := none
  , origin := origin
  , bePolicy := none }

def addFs (st : ZfsState) (n : Str) (info : FsInfo) : ZfsState :=
  { st with fs := st.fs ++ [(n, info)] }

/-- `zfs_create`: fails (`none`) when the dataset already exists. -/
def zfs_create (st : ZfsState) (n : Str) (props : Props) : Option ZfsState :=
  if zfs_dataset_exists st n then none
  else some (addFs st n (infoFromProps props none))

/-- Recursive `zfs_snapshot`: snapshots the dataset and every descendant in
lock-step; fails when the root snapshot name is already taken. -/
def zfs_snapshot_recursive (st : ZfsState) (ds snapname : Str) : Option ZfsState :=
  if snapExists st (ds ++ atChar :: snapname) then none
  else
    let newSnaps :=
      ((st.fs.map Prod.fst).filter (fun d => descendsOrSelf ds d)).map
        (fun d => d ++ atChar :: snapname)
    some { st with snaps := st.snaps ++ newSnaps }

/-- `zfs_unmount` (force) followed by `zfs_destroy` of one dataset: removes
the dataset and its own snapshots. -/
def zfs_destroy_fs (st : ZfsState) (n : Str) : ZfsState :=
  { st with fs := st.fs.filter (fun e => !(e.1 == n)),
            snaps := st.snaps.filter (fun s => !((n ++ [atChar]).isPrefixOf s)) }

/-- `zfs_destroy_snaps`: destroys the snapshots named `snap` of `parent` and
of all of `parent`'s descendants (the recursive snapshot set). -/
def zfs_destroy_snaps (st : ZfsState) (parent snap : Str) : ZfsState :=
  { st with snaps := st.snaps.filter (fun s =>
      match be_get_snap s with
      | some (d, sn) => !(sn == snap && descendsOrSelf parent d)
      | none => true) }

/-- `ZFS_PROP_NUMCLONES` of a snapshot: the number of filesystems whose origin
references it. -/
def numClones (st : ZfsState) (s : Str) : Nat :=
  (st.fs.filter (fun e => e.2.origin == some s)).length

/-- External collaborators and substrate failure oracles.
`validName` models `be_valid_be_name`, `autoName` the successive results of
`be_auto_be_name`, `autoSnapName` the name produced by `_be_create_snapshot`,
`defaultPolicy` the result of `be_default_policy` (all from parts of the
library outside these sources, modelled from the spec as opaque collaborators).
`maxTry` models the constant `BE_AUTO_NAME_MAX_TRY` from the header (not among
the sources).  `cloneFails`/`sendFails` inject substrate failures: a hard
`zfs_clone` failure at a given target, and a nonzero exit of the `zfs_send`
child for a given source dataset. -/
structure Env where
  validName : Str → Bool
  autoName : Nat → Str
  autoSnapName : Str
  defaultPolicy : Str
  cloneFails : Str → Bool
  sendFails : Str → Bool
  maxTry : Nat

/-- The fields of `be_transaction_data_t` used by the replicators. -/
structure BeTransactionData where
  obe_name : Str
  obe_zpool : Str
  obe_root_ds : Str
  obe_snap_name : Str
  nbe_name : Str
  nbe_zpool : Str
  nbe_root_ds : Str
deriving DecidableEq

/-- The per-node property computation shared policy of `be_clone_fs_callback`
(lines 1307-1364): for the BE root (empty relative path) force the mountpoint
to legacy; for other nodes carry a locally-set mountpoint literally and drop
an inherited one from the list; finally force `canmount=noauto`.  The
`bt->nbe_zfs_props` nvlist is mutated in place in the C code, so the incoming
`props` is whatever previous nodes of the walk left behind. -/
def be_clone_props (props : Props) (child_fs : Str) (info : FsInfo) : Props :=
  let p :=
    if child_fs = [] then nvlistAddString props mountpointKey legacyVal
    else if info.mpLocal then nvlistAddString props mountpointKey info.mountpoint
    else nvlistRemoveAll props mountpointKey
  nvlistAddString p canmountKey noautoVal

/-- The per-node property computation of `be_send_fs_callback`
(lines 1473-1528), textually the same policy as the clone variant. -/
def be_send_props (props : Props) (child_fs : Str) (info : FsInfo) : Props :=
  let p :=
    if child_fs = [] then nvlistAddString props mountpointKey legacyVal
    else if info.mpLocal then nvlistAddString props mountpointKey info.mountpoint
    else nvlistRemoveAll props mountpointKey
  nvlistAddString p canmountKey noautoVal

/-- `be_clone_fs_callback` (lines 1265-1412): replicate one node of the source
BE onto the destination by cloning its snapshot, then iterate into the node's
children.  The handle is the dataset name; the first argument is recursion
fuel (one unit per tree level; callers pass more than the dataset count, so it
never runs out on a well-formed walk; exhaustion is a generic failure).
Faithfully to the C code, the result of the child iteration
(`zfs_iter_filesystems`, line 1409) is discarded and the function returns 0
once its own clone succeeded. -/
def be_clone_fs_callback (env : Env) (bt : BeTransactionData) :
    Nat → Str → ZfsState → Props → Nat × ZfsState × Props
  | 0, _, st, props => (1, st, props)
  | fuel + 1, zhp_name, st, props =>
    if strncmp zhp_name bt.obe_root_ds bt.obe_root_ds.length < 0 then
      (1, st, props)
    else
      let child_fs := zhp_name.drop bt.obe_root_ds.length
      let clone_ds := bt.nbe_root_ds ++ child_fs
      let propsRes : Option Props :=
        if child_fs = [] then some (be_clone_props props child_fs emptyFsInfo)
        else
          match fsLookup st zhp_name with
          | none => none
          | some info => some (be_clone_props props child_fs info)
      match propsRes with
      | none => (1, st, props)
      | some props2 =>
        let ss := zhp_name ++ atChar :: bt.obe_snap_name
        if ¬ snapExists st ss then (1, st, props2)
        else if zfs_dataset_exists st clone_ds then (BE_ERR_EXISTS, st, props2)
        else if env.cloneFails clone_ds then (1, st, props2)
        else
          let st1 := addFs st clone_ds (infoFromProps props2 (some ss))
          let r := (childNamesOf st1 zhp_name).foldl
            (fun acc c =>
              if acc.1 ≠ 0 then acc
              else be_clone_fs_callback env bt fuel c acc.2.1 acc.2.2)
            (0, st1, props2)
          (0, r.2.1, r.2.2)

/-- `be_send_fs_callback` (lines 1428-1628): replicate one node across pools
by creating the destination dataset and piping `zfs_send` into `zfs_receive`,
then iterate into the node's children.  A failed receive is only logged by the
C code; only the send child's exit status (oracle `sendFails`) aborts the
node.  Unlike the clone variant, a failed child iteration is propagated. -/
def be_send_fs_callback (env : Env) (bt : BeTransactionData) :
    Nat → Str → ZfsState → Props → Nat × ZfsState × Props
  | 0, _, st, props => (1, st, props)
  | fuel + 1, zhp_name, st, props =>
    if strncmp zhp_name bt.obe_root_ds bt.obe_root_ds.length < 0 then
      (1, st, props)
    else
      let child_fs := zhp_name.drop bt.obe_root_ds.length
      let clone_ds := bt.nbe_root_ds ++ child_fs
      let propsRes : Option Props :=
        if child_fs = [] then some (be_send_props props child_fs emptyFsInfo)
        else
          match fsLookup st zhp_name with
          | none => none
          | some info => some (be_send_props props child_fs info)
      match propsRes with
      | none => (1, st, props)
      | some props2 =>
        let ss := zhp_name ++ atChar :: bt.obe_snap_name
        if ¬ snapExists st ss then (1, st, props2)
        else
          match zfs_create st clone_ds props2 with
          | none => (1, st, props2)
          | some st1 =>
            if env.sendFails zhp_name then (1, st1, props2)
            else
              let r := (childNamesOf st1 zhp_name).foldl
                (fun acc c =>
                  if acc.1 ≠ 0 then acc
                  else be_send_fs_callback env bt fuel c acc.2.1 acc.2.2)
                (0, st1, props2)
              if r.1 ≠ 0 then (1, r.2.1, r.2.2) else (0, r.2.1, r.2.2)

/-- `be_destroy_callback` (lines 1643-1663): destroy the children of a node
first, then force-unmount and destroy the node itself; a child failure aborts
immediately. -/
def be_destroy_callback : Nat → Str → ZfsState → Nat × ZfsState
  | 0, _, st => (1, st)
  | fuel + 1, zhp_name, st =>
    let r := (childNamesOf st zhp_name).foldl
      (fun acc c =>
        if acc.1 ≠ 0 then acc else be_destroy_callback fuel c acc.2)
      (0, st)
    if r.1 ≠ 0 then (1, r.2)
    else (0, zfs_destroy_fs r.2 zhp_name)

/-- `be_create_container_ds` (lines 1719-1767): ensure the pool's BE container
dataset exists, creating it with `mountpoint=legacy`, `canmount=off` if
absent; `none` is the `B_FALSE` failure return. -/
def be_create_container_ds (st : ZfsState) (zpool : Str) : Option ZfsState :=
  let cds := be_make_container_ds zpool
  if zfs_dataset_exists st cds then some st
  else
    let props := nvlistAddString
      (nvlistAddString [] mountpointKey legacyVal) canmountKey offVal
    zfs_create st cds props

/-- The attributes `be_init` reads from its nvlist.  `fs_attrs` pairs
`BE_ATTR_FS_NUM` with `BE_ATTR_FS_NAMES` (looked up without `NOENTOK`, so they
are required); `shared_attrs` pairs the shared variants (optional, defaulting
to zero/empty). -/
structure InitAttrs where
  nbe_name : Option Str
  nbe_zpool : Option Str
  zfs_props : Option Props
  fs_attrs : Option (Nat × List Str)
  shared_attrs : Option (Nat × List Str)

/-- The non-shared child filesystem creation loop of `be_init`
(lines 264-297): skip `"/"`, otherwise overwrite the mountpoint in the shared
property list and create `<root>/<path>`; a creation failure stops the loop
with the partial state kept (no rollback). -/
def be_init_fs_loop (nbe_root_ds : Str) :
    List Str → ZfsState → Props → Nat × ZfsState × Props
  | [], st, props => (0, st, props)
  | f :: rest, st, props =>
    if f == [slashChar] then be_init_fs_loop nbe_root_ds rest st props
    else
      let props := nvlistAddString props mountpointKey f
      match zfs_create st (nbe_root_ds ++ f) props with
      | none => (1, st, props)
      | some st1 => be_init_fs_loop nbe_root_ds rest st1 props

/-- The shared filesystem creation loop of `be_init` (lines 299-341): create
`<pool><path>` with a fresh property list holding only the mountpoint, but
only when no dataset of that name exists yet. -/
def be_init_shared_loop (nbe_zpool : Str) :
    List Str → ZfsState → Props → Nat × ZfsState × Props
  | [], st, props => (0, st, props)
  | f :: rest, st, props =>
    let child := nbe_zpool ++ f
    let props := nvlistAddString props mountpointKey f
    if zfs_dataset_exists st child then be_init_shared_loop nbe_zpool rest st props
    else
      match zfs_create st child props with
      | none => (1, st, props)
      | some st1 => be_init_shared_loop nbe_zpool rest st1 props

/-- `be_init` (lines 87-350): create the skeleton hierarchy of a new BE.
Validate the attributes, ensure the pool and the container dataset, refuse a
BE name existing in any pool, then create the root dataset (mountpoint forced
to legacy, canmount noauto on top of caller properties), the non-shared child
datasets, and the shared datasets.  Failures return 1 and keep whatever was
already created. -/
def be_init (env : Env) (st : ZfsState) (attrs : InitAttrs) : Nat × ZfsState :=
  match attrs.nbe_name with
  | none => (1, st)
  | some nbe_name =>
    if ¬ env.validName nbe_name then (1, st)
    else
      match attrs.nbe_zpool with
      | none => (1, st)
      | some nbe_zpool =>
        match attrs.fs_attrs with
        | none => (1, st)
        | some (fs_num, fs_names) =>
          if fs_names.length ≠ fs_num then (1, st)
          else
            let shared := attrs.shared_attrs.getD (0, [])
            if shared.2.length ≠ shared.1 then (1, st)
            else if ¬ st.pools.any (fun p => p == nbe_zpool) then (1, st)
            else
              match be_create_container_ds st nbe_zpool with
              | none => (1, st)
              | some stc =>
                if stc.pools.any
                    (fun p => zfs_dataset_exists stc (be_make_root_ds p nbe_name))
                then (1, stc)
                else
                  let nbe_root_ds := be_make_root_ds nbe_zpool nbe_name
                  let props := attrs.zfs_props.getD []
                  let props := nvlistAddString props mountpointKey legacyVal
                  let props := nvlistAddString props canmountKey noautoVal
                  match zfs_create stc nbe_root_ds props with
                  | none => (1, stc)
                  | some str0 =>
                    match be_init_fs_loop nbe_root_ds fs_names str0 props with
                    | (r1, st1, _) =>
                      if r1 ≠ 0 then (1, st1)
                      else
                        match be_init_shared_loop nbe_zpool shared.2 st1 [] with
                        | (r2, st2, _) =>
                          if r2 ≠ 0 then (1, st2) else (0, st2)

/-- `be_destroy` (lines 369-533): refuse a mounted BE, capture the origin
snapshot, tear down the hierarchy, then destroy the origin snapshot only when
its snapshot name-component equals the destroyed BE's name and it has no
remaining dependent clones.  The GRUB menu update at `done:` is an external
collaborator modelled as succeeding. -/
def be_destroy (env : Env) (st : ZfsState) (attr : Option Str) : Nat × ZfsState :=
  match attr with
  | none => (1, st)
  | some obe_name =>
    if ¬ env.validName obe_name then (1, st)
    else
      match st.pools.find?
          (fun p => zfs_dataset_exists st (be_make_root_ds p obe_name)) with
      | none => (1, st)
      | some obe_zpool =>
        let obe_root_ds := be_make_root_ds obe_zpool obe_name
        match fsLookup st obe_root_ds with
        | none => (1, st)
        | some info =>
          if info.mountedAt.isSome then (1, st)
          else
            let originRes : Option (Option (Str × Str × Str)) :=
              match info.origin with
              | none => some none
              | some origin =>
                match be_get_snap origin with
                | none => none
                | some (parent, snap) => some (some (origin, parent, snap))
            match originRes with
            | none => (1, st)
            | some og =>
              match be_destroy_callback (st.fs.length + 1) obe_root_ds st with
              | (rt, st1) =>
                if rt ≠ 0 then (1, st1)
                else
                  match og with
                  | none => (0, st1)
                  | some (origin, parent, snap) =>
                    if ¬ snap == obe_name then (0, st1)
                    else if ¬ snapExists st1 origin then (1, st1)
                    else if numClones st1 origin ≠ 0 then (0, st1)
                    else if ¬ zfs_dataset_exists st1 parent then (1, st1)
                    else (0, zfs_destroy_snaps st1 parent snap)

/-- The component after the last `/` of a dataset path (C `basename`). -/
def basename (n : Str) : Str :=
  match strrchrIdx n slashChar with
  | some i => n.drop (i + 1)
  | none => n

/-- `be_zpool_find_current_be_callback` / `be_zfs_find_current_be_callback`
(lines 1152-1245): scan every pool's container for the first BE dataset
mounted at `/`; returns the pool and the BE name. -/
def be_find_current_be (st : ZfsState) : Option (Str × Str) :=
  st.pools.findSome? (fun pool =>
    let cds := be_make_container_ds pool
    if ¬ zfs_dataset_exists st cds then none
    else
      (childNamesOf st cds).findSome? (fun c =>
        match fsLookup st c with
        | none => none
        | some info =>
          if info.mountedAt == some [slashChar] then some (pool, basename c)
          else none))

/-- The `for (i = 1; i < BE_AUTO_NAME_MAX_TRY; i++)` retry loop of `be_copy`
(lines 879-931): attempt `i` regenerates the auto BE name and root dataset and
re-runs the clone walk; success breaks out, a non-`BE_ERR_EXISTS` failure or
exhausting the attempt count returns 1.  `remaining` counts the iterations
left (`env.maxTry - i`). -/
def be_copy_retry_loop (env : Env) (zhp_name : Str) (fuel : Nat) :
    BeTransactionData → ZfsState → Props → Nat → Nat →
    Nat × ZfsState × Props × BeTransactionData
  | bt, st, props, _, 0 => (1, st, props, bt)
  | bt, st, props, i, remaining + 1 =>
    let nbe := env.autoName i
    let bt1 := { bt with nbe_name := nbe,
                         nbe_root_ds := be_make_root_ds bt.nbe_zpool nbe }
    match be_clone_fs_callback env bt1 fuel zhp_name st props with
    | (zret, st1, props1) =>
      if zret = 0 then (0, st1, props1, bt1)
      else if zret ≠ BE_ERR_EXISTS then (1, st1, props1, bt1)
      else be_copy_retry_loop env zhp_name fuel bt1 st1 props1 (i + 1) remaining

/-- The clone attempt plus retry policy of `be_copy` (lines 864-933): run the
clone walk once; on `BE_ERR_EXISTS` with an auto-named BE, retry under fresh
auto names until the fixed maximum attempt count `env.maxTry`
(`BE_AUTO_NAME_MAX_TRY`) is exhausted; any other failure is a hard abort. -/
def be_copy_retry (env : Env) (zhp_name : Str) (fuel : Nat)
    (bt : BeTransactionData) (st : ZfsState) (props : Props)
    (autoname : Bool) : Nat × ZfsState × Props × BeTransactionData :=
  match be_clone_fs_callback env bt fuel zhp_name st props with
  | (zret, st1, props1) =>
    if zret = 0 then (0, st1, props1, bt)
    else if ¬ autoname ∨ zret ≠ BE_ERR_EXISTS then (1, st1, props1, bt)
    else be_copy_retry_loop env zhp_name fuel bt st1 props1 1 (env.maxTry - 1)

/-- The attributes `be_copy` reads from its nvlist (all optional). -/
structure CopyAttrs where
  obe_name : Option Str
  obe_snap_name : Option Str
  nbe_name : Option Str
  nbe_zpool : Option Str
  nbe_desc : Option Str
  policy : Option Str
  zfs_props : Option Props

/-- The tail of `be_copy` (lines 984-1051) after a successful replication:
update the vfstab and GRUB entries (external collaborators modelled as
succeeding) and, for an auto-named BE, set the policy property on the new root
and return the auto-generated name to the caller. -/
def be_copy_finish (st : ZfsState) (bt : BeTransactionData)
    (autoname : Bool) (policy : Str) (outSnap : Option Str) :
    Nat × ZfsState × Option Str × Option Str :=
  if autoname then
    match fsLookup st bt.nbe_root_ds with
    | none => (1, st, outSnap, none)
    | some info =>
      let st1 := { st with fs := st.fs.map (fun e =>
        if e.1 == bt.nbe_root_ds then (e.1, { info with bePolicy := some policy })
        else e) }
      (0, st1, outSnap, some bt.nbe_name)
  else (0, st, outSnap, none)

/-- `be_copy` (lines 568-1051): duplicate a BE.  Resolve the source BE (given
or currently active), its pool, the destination name (given, or auto-named —
in which case an explicit pool or snapshot is refused), the destination pool
(defaults to the source pool), and the triggering snapshot (verify a given
one; otherwise create a recursive snapshot, auto-named for an auto-named BE,
else named after the new BE).  Same pool: clone walk with auto-name retry.
Different pool: ensure the container and run the send/receive walk.  Returns
(status, state, returned snapshot name, returned auto BE name). -/
def be_copy (env : Env) (st : ZfsState) (attrs : CopyAttrs) :
    Nat × ZfsState × Option Str × Option Str :=
  let obe_nameRes : Option Str :=
    match attrs.obe_name with
    | none => (be_find_current_be st).map Prod.snd
    | some n => if env.validName n then some n else none
  match obe_nameRes with
  | none => (1, st, none, none)
  | some obe_name =>
    match st.pools.find?
        (fun p => zfs_dataset_exists st (be_make_root_ds p obe_name)) with
    | none => (1, st, none, none)
    | some obe_zpool =>
      let policy := attrs.policy.getD env.defaultPolicy
      let props0 := attrs.zfs_props.getD []
      let nbeRes : Option (Str × Bool) :=
        match attrs.nbe_name with
        | some nbe0 =>
          if ¬ env.validName nbe0 then none
          else if st.pools.any
              (fun p => zfs_dataset_exists st (be_make_root_ds p nbe0)) then none
          else some (nbe0, false)
        | none =>
          if attrs.nbe_zpool.isSome then none
          else if attrs.obe_snap_name.isSome then none
          else some (env.autoName 0, true)
      match nbeRes with
      | none => (1, st, none, none)
      | some (nbe_name, autoname) =>
        let nbe_zpool := attrs.nbe_zpool.getD obe_zpool
        let obe_root_ds := be_make_root_ds obe_zpool obe_name
        let nbe_root_ds := be_make_root_ds nbe_zpool nbe_name
        let snapRes : Option (Str × ZfsState × Option Str) :=
          match attrs.obe_snap_name with
          | some sn =>
            if snapExists st (obe_root_ds ++ atChar :: sn) then some (sn, st, none)
            else none
          | none =>
            if autoname then
              match zfs_snapshot_recursive st obe_root_ds env.autoSnapName with
              | none => none
              | some st1 => some (env.autoSnapName, st1, some env.autoSnapName)
            else
              match zfs_snapshot_recursive st obe_root_ds nbe_name with
              | none => none
              | some st1 => some (nbe_name, st1, none)
        match snapRes with
        | none => (1, st, none, none)
        | some (obe_snap_name, st1, outSnap) =>
          let bt : BeTransactionData :=
            { obe_name := obe_name, obe_zpool := obe_zpool,
              obe_root_ds := obe_root_ds, obe_snap_name := obe_snap_name,
              nbe_name := nbe_name, nbe_zpool := nbe_zpool,
              nbe_root_ds := nbe_root_ds }
          if obe_zpool == nbe_zpool then
            if ¬ zfs_dataset_exists st1 obe_root_ds then (1, st1, outSnap, none)
            else
              match be_copy_retry env obe_root_ds (st1.fs.length + 1) bt st1
                  props0 autoname with
              | (zret, st2, _, btOut) =>
                if zret ≠ 0 then (1, st2, outSnap, none)
                else be_copy_finish st2 btOut autoname policy outSnap
          else
            match be_create_container_ds st1 nbe_zpool with
            | none => (1, st1, outSnap, none)
            | some st1b =>
              if ¬ zfs_dataset_exists st1b obe_root_ds then (1, st1b, outSnap, none)
              else
                match be_send_fs_callback env bt (st1b.fs.length + 1) obe_root_ds
                    st1b props0 with
                | (zret, st2, _) =>
                  if zret ≠ 0 then (1, st2, outSnap, none)
                  else be_copy_finish st2 bt autoname policy outSnap

/-- The relative child-dataset paths of the BE rooted at `root`: the empty
path for the root itself, plus the `/`-prefixed suffix of every dataset under
it. -/
def relPaths (st : ZfsState) (root : Str) : List Str :=
  (st.fs.map Prod.fst).filterMap (fun n =>
    if n == root then some []
    else if (root ++ [slashChar]).isPrefixOf n then some (n.drop root.length)
    else none)

/-! Concrete instances for the evaluations and witnesses. -/

/-- Concrete environment: every BE name is valid, the auto-name generator
yields `auto0`, `auto1`, ..., `BE_AUTO_NAME_MAX_TRY` is 2, and the substrate
fails hard exactly when cloning to `rpool/ROOT/be2/var`. -/
def wEnv : Env :=
  { validName := fun _ => true
  , autoName := fun i => ("auto").toList ++ [Char.ofNat (48 + i)]
  , autoSnapName := ("snapauto").toList
  , defaultPolicy := ("static").toList
  , cloneFails := fun n => n == ("rpool/ROOT/be2/var").toList
  , sendFails := fun _ => false
  , maxTry := 2 }

def wRootInfo : FsInfo :=
  { mountpoint := legacyVal, mpLocal := true, canmount := noautoVal,
    mountedAt := none, origin := none, bePolicy := none }

def wVarInfo : FsInfo :=
  { mountpoint := ("/var").toList, mpLocal := true, canmount := noautoVal,
    mountedAt := none, origin := none, bePolicy := none }

/-- A pool `rpool` holding the BE `be1` with one child dataset `var`. -/
def wSrcState : ZfsState :=
  { pools := [("rpool").toList]
  , fs := [ (("rpool").toList, emptyFsInfo)
          , (("rpool/ROOT").toList, emptyFsInfo)
          , (("rpool/ROOT/be1").toList, wRootInfo)
          , (("rpool/ROOT/be1/var").toList, wVarInfo) ]
  , snaps := [] }

/-- `wSrcState` after the recursive snapshot `be2` has been taken. -/
def wSrcStateSnapped : ZfsState :=
  { wSrcState with
    snaps := [("rpool/ROOT/be1@be2").toList, ("rpool/ROOT/be1/var@be2").toList] }

/-- The transaction for cloning `be1` to `be2` from snapshot `be2`. -/
def wBt : BeTransactionData :=
  { obe_name := ("be1").toList
  , obe_zpool := ("rpool").toList
  , obe_root_ds := ("rpool/ROOT/be1").toList
  , obe_snap_name := ("be2").toList
  , nbe_name := ("be2").toList
  , nbe_zpool := ("rpool").toList
  , nbe_root_ds := ("rpool/ROOT/be2").toList }

/-- Copy request: duplicate `be1` as `be2` in the same pool. -/
def wCopyAttrs : CopyAttrs :=
  { obe_name := some (("be1").toList), obe_snap_name := none
  , nbe_name := some (("be2").toList), nbe_zpool := none
  , nbe_desc := none, policy := none, zfs_props := none }

/-- Copy request with auto-naming but an explicit destination pool. -/
def wBadCopyAttrs : CopyAttrs :=
  { obe_name := some (("be1").toList), obe_snap_name := none
  , nbe_name := none, nbe_zpool := some (("rpool").toList)
  , nbe_desc := none, policy := none, zfs_props := none }

/-- State for the auto-name retry witness: the candidate `auto0` is taken,
`auto1` is free, and the source snapshot `snapauto` exists. -/
def wRetryState : ZfsState :=
  { pools := [("rpool").toList]
  , fs := [ (("rpool/ROOT").toList, emptyFsInfo)
          , (("rpool/ROOT/be1").toList, wRootInfo)
          , (("rpool/ROOT/auto0").toList, emptyFsInfo) ]
  , snaps := [("rpool/ROOT/be1@snapauto").toList] }

/-- Transaction for the first auto-name attempt (`auto0`). -/
def wRetryBt : BeTransactionData :=
  { obe_name := ("be1").toList
  , obe_zpool := ("rpool").toList
  , obe_root_ds := ("rpool/ROOT/be1").toList
  , obe_snap_name := ("snapauto").toList
  , nbe_name := ("auto").toList ++ [Char.ofNat 48]
  , nbe_zpool := ("rpool").toList
  , nbe_root_ds := be_make_root_ds (("rpool").toList) (("auto").toList ++ [Char.ofNat 48]) }

/-- Root dataset properties of a BE cloned from `rpool/ROOT/be0@be1`. -/
def wCloneRootInfo : FsInfo :=
  { wRootInfo with origin := some (("rpool/ROOT/be0@be1").toList) }

/-- State for the destroy-with-origin witness: `be1` is a clone of
`rpool/ROOT/be0@be1` and carries a child `var`. -/
def wDestroyState : ZfsState :=
  { pools := [("rpool").toList]
  , fs := [ (("rpool").toList, emptyFsInfo)
          , (("rpool/ROOT").toList, emptyFsInfo)
          , (("rpool/ROOT/be0").toList, wRootInfo)
          , (("rpool/ROOT/be1").toList, wCloneRootInfo)
          , (("rpool/ROOT/be1/var").toList, wVarInfo) ]
  , snaps := [("rpool/ROOT/be0@be1").toList] }

/-- The state of `wDestroyState` after the hierarchy teardown of `be1`. -/
def wDestroyTorn : ZfsState :=
  (be_destroy_callback (wDestroyState.fs.length + 1)
    (("rpool/ROOT/be1").toList) wDestroyState).2

/-- State whose BE `be1` is currently mounted at `/`. -/
def wMountedState : ZfsState :=
  { pools := [("rpool").toList]
  , fs := [ (("rpool").toList, emptyFsInfo)
          , (("rpool/ROOT").toList, emptyFsInfo)
          , (("rpool/ROOT/be1").toList,
             { wRootInfo with mountedAt := some [slashChar] }) ]
  , snaps := [] }

/-- The `be_init` request of the scenario: BE `be1` in pool `rpool` with
filesystems `/` and `/var`, and shared filesystems `/export` and `/opt`. -/
def wInitAttrs : InitAttrs :=
  { nbe_name := some (("be1").toList)
  , nbe_zpool := some (("rpool").toList)
  , zfs_props := none
  , fs_attrs := some (2, [[slashChar], ("/var").toList])
  , shared_attrs := some (2, [("/export").toList, ("/opt").toList]) }

/-- Initial state for the `be_init` scenario: pool `rpool` with no container
dataset yet, and `rpool/export` already present. -/
def wInitState : ZfsState :=
  { pools := [("rpool").toList]
  , fs := [ (("rpool").toList, emptyFsInfo)
          , (("rpool/export").toList, emptyFsInfo) ]
  , snaps := [] }

/-- The state produced by the `be_init` scenario. -/
def wInitState1 : ZfsState := (be_init wEnv wInitState wInitAttrs).2

/-- The container dataset properties created by `be_create_container_ds`. -/
def wContainerInfo : FsInfo :=
  { mountpoint := legacyVal, mpLocal := true, canmount := offVal,
    mountedAt := none, origin := none, bePolicy := none }

/-- Properties of the shared dataset `rpool/opt` created by the scenario: only
the mountpoint is passed, so no canmount value is recorded. -/
def wOptInfo : FsInfo :=
  { mountpoint := ("/opt").toList, mpLocal := true, canmount := [],
    mountedAt := none, origin := none, bePolicy := none }

/-- The state the `be_init` scenario is expected to produce: the container
`rpool/ROOT` first (it was absent), then the BE root `rpool/ROOT/be1`
(mountpoint legacy, canmount noauto), its child `rpool/ROOT/be1/var`
(mountpoint `/var`, canmount noauto), and the shared `rpool/opt` directly
under the pool; `rpool/export` already existed and is left alone. -/
def wInitExpected : ZfsState :=
  { pools := [("rpool").toList]
  , fs := [ (("rpool").toList, emptyFsInfo)
          , (("rpool/export").toList, emptyFsInfo)
          , (("rpool/ROOT").toList, wContainerInfo)
          , (("rpool/ROOT/be1").toList, wRootInfo)
          , (("rpool/ROOT/be1/var").toList, wVarInfo)
          , (("rpool/opt").toList, wOptInfo) ]
  , snaps := [] }

/-! Auxiliary lemmas about the nvlist model, string utilities, and the
substrate operations. -/

theorem find?_key_filter_out (t : Props) (k k' : Str) (hkk : ¬ k' = k) :
    (t.filter (fun e => !(e.1 == k'))).find? (fun e => e.1 == k) =
      t.find? (fun e => e.1 == k) := by
  have hkk2 : ¬ k = k' := fun hh => hkk hh.symm
  have hb : (k' == k) = false := by
    simp only [beq_eq_false_iff_ne, ne_eq]
    exact hkk
  induction t with
  | nil => rfl
  | cons e t ih =>
    by_cases h : e.1 = k'
    · have h2 : (e.1 == k) = false := by
        simp only [beq_eq_false_iff_ne, ne_eq, h]
        exact hkk
      simp [List.filter_cons, List.find?_cons, h, h2, hb, hkk2, ih]
    · by_cases h2 : e.1 = k
      · simp [List.filter_cons, List.find?_cons, h, h2, hb, hkk2]
      · simp [List.filter_cons, List.find?_cons, h, h2, hb, hkk2, ih]

theorem find?_key_filter_self (t : Props) (k : Str) :
    (t.filter (fun e => !(e.1 == k))).find? (fun e => e.1 == k) = none := by
  induction t with
  | nil => rfl
  | cons e t ih =>
    by_cases h : e.1 = k
    · simp [List.filter_cons, h, ih]
    · simp [List.filter_cons, List.find?_cons, h, ih]

theorem nvlistLookup_add_self (l : Props) (k v : Str) :
    nvlistLookup (nvlistAddString l k v) k = some v := by
  simp [nvlistLookup, nvlistAddString, List.find?_append, find?_key_filter_self,
    List.find?_cons]

theorem nvlistLookup_add_other (l : Props) (k k' v : Str) (hkk : ¬ k = k') :
    nvlistLookup (nvlistAddString l k' v) k = nvlistLookup l k := by
  have hkk' : ¬ k' = k := fun h => hkk h.symm
  have hb : (k' == k) = false := by
    simp only [beq_eq_false_iff_ne, ne_eq]
    exact hkk'
  simp [nvlistLookup, nvlistAddString, List.find?_append,
    find?_key_filter_out l k k' hkk', List.find?_cons, hb]

theorem nvlistLookup_removeAll (l : Props) (k : Str) :
    nvlistLookup (nvlistRemoveAll l k) k = none := by
  simp [nvlistLookup, nvlistRemoveAll, find?_key_filter_self]

theorem strncmp_refl (l : Str) : ∀ n, strncmp l l n = 0 := by
  induction l with
  | nil => intro n; cases n <;> simp [strncmp]
  | cons a as ih => intro n; cases n <;> simp [strncmp, ih]

theorem strrchrIdx_eq_none (l : Str) (c : Char) :
    strrchrIdx l c = none ↔ c ∉ l := by
  induction l with
  | nil => simp [strrchrIdx]
  | cons a as ih =>
    rw [strrchrIdx]
    cases h : strrchrIdx as c with
    | some i => simp_all
    | none =>
      by_cases hac : a = c
      · simp_all
      · have hca : ¬ c = a := fun hh => hac hh.symm
        simp_all

theorem strrchrIdx_spec (c : Char) :
    ∀ (l : Str) (i : Nat), strrchrIdx l c = some i →
      l.take i ++ c :: l.drop (i + 1) = l ∧ c ∉ l.drop (i + 1) := by
  intro l
  induction l with
  | nil => intro i h; simp [strrchrIdx] at h
  | cons a as ih =>
    intro i h
    rw [strrchrIdx] at h
    cases h' : strrchrIdx as c with
    | some j =>
      rw [h'] at h
      obtain rfl : j + 1 = i := by simpa using h
      obtain ⟨ih1, ih2⟩ := ih j h'
      constructor
      · simpa [List.take_succ_cons, List.drop_succ_cons] using ih1
      · simpa [List.drop_succ_cons] using ih2
    | none =>
      rw [h'] at h
      by_cases hac : a = c
      · simp only [hac, if_pos rfl] at h
        obtain rfl : 0 = i := by simpa using h
        refine ⟨by simp [hac], ?_⟩
        simpa using (strrchrIdx_eq_none as c).1 h'
      · simp [hac] at h

theorem strrchrIdx_append_last (c : Char) (n : Str) (hn : c ∉ n) :
    ∀ d : Str, strrchrIdx (d ++ c :: n) c = some d.length := by
  intro d
  induction d with
  | nil =>
    simp only [List.nil_append, strrchrIdx, (strrchrIdx_eq_none n c).2 hn]
    simp
  | cons a ds ih =>
    simp [strrchrIdx, List.append_eq, ih]

theorem be_get_snap_eq_some (s d n : Str) (h : be_get_snap s = some (d, n)) :
    s = d ++ atChar :: n ∧ n ≠ [] ∧ atChar ∉ n := by
  rw [be_get_snap] at h
  cases h' : strrchrIdx s atChar with
  | none => rw [h'] at h; simp at h
  | some i =>
    rw [h'] at h
    by_cases hd : s.drop (i + 1) = []
    · simp [hd] at h
    · simp only [hd, if_neg, if_false] at h
      obtain ⟨rfl, rfl⟩ : s.take i = d ∧ s.drop (i + 1) = n := by
        constructor <;> simp_all
      obtain ⟨h1, h2⟩ := strrchrIdx_spec atChar s i h'
      exact ⟨h1.symm, hd, h2⟩

theorem be_get_snap_decomp (d n : Str) (hn : n ≠ []) (hc : atChar ∉ n) :
    be_get_snap (d ++ atChar :: n) = some (d, n) := by
  rw [be_get_snap, strrchrIdx_append_last atChar n hc d]
  have hdrop : (d ++ atChar :: n).drop (d.length + 1) = n := by
    have : d ++ atChar :: n = (d ++ [atChar]) ++ n := by simp
    rw [this]
    have hl : (d ++ [atChar]).length = d.length + 1 := by simp
    rw [← hl]
    exact List.drop_left _ _
  have htake : (d ++ atChar :: n).take d.length = d := by
    have : d ++ atChar :: n = d ++ (atChar :: n) := rfl
    rw [this]
    exact List.take_left _ _
  simp [hdrop, htake, hn]

theorem snapExists_destroy_snaps_self (st : ZfsState) (p sn x : Str)
    (h : be_get_snap x = some (p, sn)) :
    snapExists (zfs_destroy_snaps st p sn) x = false := by
  by_contra hne
  have hc : snapExists (zfs_destroy_snaps st p sn) x = true := by
    cases hb : snapExists (zfs_destroy_snaps st p sn) x
    · exact absurd hb hne
    · rfl
  rw [snapExists, List.any_eq_true] at hc
  obtain ⟨y, hy, hyx⟩ := hc
  obtain rfl : y = x := by simpa using hyx
  simp only [zfs_destroy_snaps, List.mem_filter] at hy
  have h2 := hy.2
  simp only [h, descendsOrSelf] at h2
  simp at h2

theorem zfs_create_pools (st st1 : ZfsState) (n : Str) (p : Props)
    (h : zfs_create st n p = some st1) : st1.pools = st.pools := by
  rw [zfs_create] at h
  by_cases hex : zfs_dataset_exists st n <;> simp [hex] at h
  rw [← h]
  rfl

theorem zfs_create_mono (st st1 : ZfsState) (n m : Str) (p : Props)
    (h : zfs_create st n p = some st1) (hm : zfs_dataset_exists st m = true) :
    zfs_dataset_exists st1 m = true := by
  rw [zfs_create] at h
  by_cases hex : zfs_dataset_exists st n <;> simp [hex] at h
  rw [← h]
  simp only [zfs_dataset_exists, addFs, List.any_append]
  rw [zfs_dataset_exists] at hm
  simp [hm]

theorem zfs_create_self (st st1 : ZfsState) (n : Str) (p : Props)
    (h : zfs_create st n p = some st1) : zfs_dataset_exists st1 n = true := by
  rw [zfs_create] at h
  by_cases hex : zfs_dataset_exists st n <;> simp [hex] at h
  rw [← h]
  simp [zfs_dataset_exists, addFs, List.any_append]

theorem be_init_fs_loop_pools (r : Str) (l : List Str) :
    ∀ (st : ZfsState) (props : Props),
      (be_init_fs_loop r l st props).2.1.pools = st.pools := by
  induction l with
  | nil => intro st props; rfl
  | cons f rest ih =>
    intro st props
    rw [be_init_fs_loop]
    by_cases hf : f == [slashChar]
    · simp [hf, ih]
    · simp only [hf, Bool.false_eq_true, if_false]
      cases hc : zfs_create st (r ++ f) (nvlistAddString props mountpointKey f) with
      | none => rfl
      | some st1 => simp [ih, zfs_create_pools st st1 _ _ hc]

theorem be_init_fs_loop_mono (r : Str) (l : List Str) (m : Str) :
    ∀ (st : ZfsState) (props : Props), zfs_dataset_exists st m = true →
      zfs_dataset_exists (be_init_fs_loop r l st props).2.1 m = true := by
  induction l with
  | nil => intro st props hm; exact hm
  | cons f rest ih =>
    intro st props hm
    rw [be_init_fs_loop]
    by_cases hf : f == [slashChar]
    · simp only [hf, if_true]
      exact ih st props hm
    · simp only [hf, Bool.false_eq_true, if_false]
      cases hc : zfs_create st (r ++ f) (nvlistAddString props mountpointKey f) with
      | none => exact hm
      | some st1 => exact ih st1 _ (zfs_create_mono st st1 _ m _ hc hm)

theorem be_init_shared_loop_pools (z : Str) (l : List Str) :
    ∀ (st : ZfsState) (props : Props),
      (be_init_shared_loop z l st props).2.1.pools = st.pools := by
  induction l with
  | nil => intro st props; rfl
  | cons f rest ih =>
    intro st props
    rw [be_init_shared_loop]
    by_cases hf : zfs_dataset_exists st (z ++ f)
    · simp [hf, ih]
    · simp only [hf, Bool.false_eq_true, if_false]
      cases hc : zfs_create st (z ++ f) (nvlistAddString props mountpointKey f) with
      | none => rfl
      | some st1 => simp [ih, zfs_create_pools st st1 _ _ hc]

theorem be_init_shared_loop_mono (z : Str) (l : List Str) (m : Str) :
    ∀ (st : ZfsState) (props : Props), zfs_dataset_exists st m = true →
      zfs_dataset_exists (be_init_shared_loop z l st props).2.1 m = true := by
  induction l with
  | nil => intro st props hm; exact hm
  | cons f rest ih =>
    intro st props hm
    rw [be_init_shared_loop]
    by_cases hf : zfs_dataset_exists st (z ++ f)
    · simp only [hf, if_true]
      exact ih st _ hm
    · simp only [hf, Bool.false_eq_true, if_false]
      cases hc : zfs_create st (z ++ f) (nvlistAddString props mountpointKey f) with
      | none => exact hm
      | some st1 => exact ih st1 _ (zfs_create_mono st st1 _ m _ hc hm)

theorem be_create_container_ds_pools (st st1 : ZfsState) (p : Str)
    (h : be_create_container_ds st p = some st1) : st1.pools = st.pools := by
  rw [be_create_container_ds] at h
  by_cases hex : zfs_dataset_exists st (be_make_container_ds p)
  · simp only [hex, if_true] at h
    obtain rfl : st = st1 := by simpa using h
    rfl
  · simp only [hex, Bool.false_eq_true, if_false] at h
    exact zfs_create_pools st st1 _ _ h

theorem be_create_container_ds_mono (st st1 : ZfsState) (p m : Str)
    (h : be_create_container_ds st p = some st1)
    (hm : zfs_dataset_exists st m = true) :
    zfs_dataset_exists st1 m = true := by
  rw [be_create_container_ds] at h
  by_cases hex : zfs_dataset_exists st (be_make_container_ds p)
  · simp only [hex, if_true] at h
    obtain rfl : st = st1 := by simpa using h
    exact hm
  · simp only [hex, Bool.false_eq_true, if_false] at h
    exact zfs_create_mono st st1 _ m _ h hm

theorem be_create_container_ds_self (st st1 : ZfsState) (p : Str)
    (h : be_create_container_ds st p = some st1) :
    zfs_dataset_exists st1 (be_make_container_ds p) = true := by
  rw [be_create_container_ds] at h
  by_cases hex : zfs_dataset_exists st (be_make_container_ds p)
  · simp only [hex, if_true] at h
    obtain rfl : st = st1 := by simpa using h
    exact hex
  · simp only [hex, Bool.false_eq_true, if_false] at h
    exact zfs_create_self st st1 _ _ h

theorem be_create_container_ds_of_exists (st : ZfsState) (p : Str)
    (h : zfs_dataset_exists st (be_make_container_ds p) = true) :
    be_create_container_ds st p = some st := by
  rw [be_create_container_ds]
  simp [h]

theorem clone_callback_root_eexists (env : Env) (bt : BeTransactionData)
    (f : Nat) (st : ZfsState) (props : Props)
    (hsnap : snapExists st (bt.obe_root_ds ++ atChar :: bt.obe_snap_name) = true)
    (hex : zfs_dataset_exists st bt.nbe_root_ds = true) :
    be_clone_fs_callback env bt (f + 1) bt.obe_root_ds st props =
      (BE_ERR_EXISTS, st, be_clone_props props [] emptyFsInfo) := by
  rw [be_clone_fs_callback]
  simp only [strncmp_refl, List.drop_length, List.append_nil, hsnap, hex]
  norm_num

theorem clone_callback_root_ok (env : Env) (bt : BeTransactionData)
    (f : Nat) (st : ZfsState) (props : Props)
    (hsnap : snapExists st (bt.obe_root_ds ++ atChar :: bt.obe_snap_name) = true)
    (hex : zfs_dataset_exists st bt.nbe_root_ds = false)
    (hcf : env.cloneFails bt.nbe_root_ds = false) :
    (be_clone_fs_callback env bt (f + 1) bt.obe_root_ds st props).1 = 0 := by
  rw [be_clone_fs_callback]
  simp only [strncmp_refl, List.drop_length, List.append_nil, hsnap, hex, hcf]
  norm_num

theorem clone_callback_root_eexists_at (env : Env) (bt : BeTransactionData)
    (f : Nat) (st : ZfsState) (props : Props) (zhp : Str)
    (hz : bt.obe_root_ds = zhp)
    (hsnap : snapExists st (zhp ++ atChar :: bt.obe_snap_name) = true)
    (hex : zfs_dataset_exists st bt.nbe_root_ds = true) :
    be_clone_fs_callback env bt (f + 1) zhp st props =
      (BE_ERR_EXISTS, st, be_clone_props props [] emptyFsInfo) := by
  subst hz
  exact clone_callback_root_eexists env bt f st props hsnap hex

theorem clone_callback_root_ok_at (env : Env) (bt : BeTransactionData)
    (f : Nat) (st : ZfsState) (props : Props) (zhp : Str)
    (hz : bt.obe_root_ds = zhp)
    (hsnap : snapExists st (zhp ++ atChar :: bt.obe_snap_name) = true)
    (hex : zfs_dataset_exists st bt.nbe_root_ds = false)
    (hcf : env.cloneFails bt.nbe_root_ds = false) :
    (be_clone_fs_callback env bt (f + 1) zhp st props).1 = 0 := by
  subst hz
  exact clone_callback_root_ok env bt f st props hsnap hex hcf

theorem retry_loop_all_taken (env : Env) (zhp : Str) (f : Nat) (st : ZfsState) :
    ∀ (remaining i : Nat) (bt : BeTransactionData) (props : Props),
      bt.obe_root_ds = zhp →
      snapExists st (zhp ++ atChar :: bt.obe_snap_name) = true →
      (∀ j, i ≤ j → j < env.maxTry →
        zfs_dataset_exists st (be_make_root_ds bt.nbe_zpool (env.autoName j)) = true) →
      i + remaining = env.maxTry →
      (be_copy_retry_loop env zhp (f + 1) bt st props i remaining).1 = 1 := by
  intro remaining
  induction remaining with
  | zero =>
    intro i bt props _ _ _ _
    rw [be_copy_retry_loop]
  | succ rem ih =>
    intro i bt props hroot hsnap htaken hcount
    have hibound : i < env.maxTry := by omega
    rw [be_copy_retry_loop]
    rw [clone_callback_root_eexists_at env
      { bt with nbe_name := env.autoName i,
                nbe_root_ds := be_make_root_ds bt.nbe_zpool (env.autoName i) }
      f st props zhp hroot hsnap (htaken i le_rfl hibound)]
    simp only [BE_ERR_EXISTS]
    norm_num
    exact ih (i + 1) _ _ hroot hsnap
      (fun j hj hj2 => htaken j (by omega) hj2) (by omega)

theorem retry_loop_first_free (env : Env) (zhp : Str) (f : Nat) (st : ZfsState) :
    ∀ (remaining i : Nat) (bt : BeTransactionData) (props : Props) (k : Nat),
      bt.obe_root_ds = zhp →
      snapExists st (zhp ++ atChar :: bt.obe_snap_name) = true →
      i ≤ k → k < env.maxTry →
      (∀ j, i ≤ j → j < k →
        zfs_dataset_exists st (be_make_root_ds bt.nbe_zpool (env.autoName j)) = true) →
      zfs_dataset_exists st (be_make_root_ds bt.nbe_zpool (env.autoName k)) = false →
      env.cloneFails (be_make_root_ds bt.nbe_zpool (env.autoName k)) = false →
      i + remaining = env.maxTry →
      (be_copy_retry_loop env zhp (f + 1) bt st props i remaining).1 = 0 ∧
      (be_copy_retry_loop env zhp (f + 1) bt st props i remaining).2.2.2.nbe_name =
        env.autoName k := by
  intro remaining
  induction remaining with
  | zero =>
    intro i bt props k _ _ hik hk _ _ _ hcount
    omega
  | succ rem ih =>
    intro i bt props k hroot hsnap hik hk htaken hfree hcf hcount
    rw [be_copy_retry_loop]
    rcases Nat.eq_or_lt_of_le hik with heq | hlt
    · subst heq
      rcases hc : be_clone_fs_callback env
          { bt with nbe_name := env.autoName i,
                    nbe_root_ds := be_make_root_ds bt.nbe_zpool (env.autoName i) }
          (f + 1) zhp st props with ⟨zret, st1, props1⟩
      have h0 : zret = 0 := by
        have := clone_callback_root_ok_at env
          { bt with nbe_name := env.autoName i,
                    nbe_root_ds := be_make_root_ds bt.nbe_zpool (env.autoName i) }
          f st props zhp hroot hsnap hfree hcf
        rw [hc] at this
        exact this
      subst h0
      simp [hc]
    · rw [clone_callback_root_eexists_at env
        { bt with nbe_name := env.autoName i,
                  nbe_root_ds := be_make_root_ds bt.nbe_zpool (env.autoName i) }
        f st props zhp hroot hsnap (htaken i le_rfl hlt)]
      simp only [BE_ERR_EXISTS]
      norm_num
      exact ih (i + 1) _ _ k hroot hsnap hlt hk
        (fun j hj hj2 => htaken j (by omega) hj2) hfree hcf (by omega)

/-! The claims. -/

/-- C10: `be_get_snap` succeeds (returns 0) if and only if its input contains
an `@` whose last occurrence is followed by at least one character; on success
it splits the input at that last `@` into the dataset portion and the
non-empty snapshot name (which therefore contains no further `@`); for an
input with no `@`, or ending in `@`, it returns 1 without output. -/
theorem be_get_snap_correct (s : Str) :
    ((be_get_snap s).isSome = true ↔
      ∃ d n, s = d ++ atChar :: n ∧ n ≠ [] ∧ atChar ∉ n) ∧
    (∀ d n, be_get_snap s = some (d, n) →
      s = d ++ atChar :: n ∧ n ≠ [] ∧ atChar ∉ n) := by
  constructor
  · constructor
    · intro h
      rcases ho : be_get_snap s with _ | ⟨d, n⟩
      · rw [ho] at h
        simp at h
      · obtain ⟨h1, h2, h3⟩ := be_get_snap_eq_some s d n ho
        exact ⟨d, n, h1, h2, h3⟩
    · rintro ⟨d, n, rfl, hn, hc⟩
      rw [be_get_snap_decomp d n hn hc]
      rfl
  · intro d n h
    exact be_get_snap_eq_some s d n h

/-- C10 witness: `p/ds@snap1` splits into `p/ds` and `snap1`. -/
theorem be_get_snap_correct_witness :
    ("p/ds@snap1").toList = ("p/ds").toList ++ atChar :: ("snap1").toList ∧
      ("snap1").toList ≠ [] ∧ atChar ∉ ("snap1").toList :=
  (be_get_snap_correct (("p/ds@snap1").toList)).2 (("p/ds").toList)
    (("snap1").toList) (by decide)

theorem be_clone_props_root (p : Props) (info : FsInfo) :
    be_clone_props p [] info =
      nvlistAddString (nvlistAddString p mountpointKey legacyVal)
        canmountKey noautoVal := rfl

theorem be_send_props_root (p : Props) (info : FsInfo) :
    be_send_props p [] info =
      nvlistAddString (nvlistAddString p mountpointKey legacyVal)
        canmountKey noautoVal := rfl

theorem be_clone_props_nonroot (p : Props) (c : Char) (cf : Str) (info : FsInfo) :
    be_clone_props p (c :: cf) info =
      nvlistAddString
        (if info.mpLocal then nvlistAddString p mountpointKey info.mountpoint
         else nvlistRemoveAll p mountpointKey)
        canmountKey noautoVal := by
  simp [be_clone_props]

theorem be_send_props_nonroot (p : Props) (c : Char) (cf : Str) (info : FsInfo) :
    be_send_props p (c :: cf) info =
      nvlistAddString
        (if info.mpLocal then nvlistAddString p mountpointKey info.mountpoint
         else nvlistRemoveAll p mountpointKey)
        canmountKey noautoVal := by
  simp [be_send_props]

theorem be_clone_props_canmount (p : Props) (cf : Str) (info : FsInfo) :
    nvlistLookup (be_clone_props p cf info) canmountKey = some noautoVal := by
  rw [show be_clone_props p cf info =
    nvlistAddString
      (if cf = [] then nvlistAddString p mountpointKey legacyVal
       else if info.mpLocal then nvlistAddString p mountpointKey info.mountpoint
       else nvlistRemoveAll p mountpointKey)
      canmountKey noautoVal from rfl]
  rw [nvlistLookup_add_self]

theorem be_send_props_canmount (p : Props) (cf : Str) (info : FsInfo) :
    nvlistLookup (be_send_props p cf info) canmountKey = some noautoVal := by
  rw [show be_send_props p cf info =
    nvlistAddString
      (if cf = [] then nvlistAddString p mountpointKey legacyVal
       else if info.mpLocal then nvlistAddString p mountpointKey info.mountpoint
       else nvlistRemoveAll p mountpointKey)
      canmountKey noautoVal from rfl]
  rw [nvlistLookup_add_self]

/-- C4: for every replicated node, in both replicator variants, the property
set used to create the destination node maps the BE root to mountpoint
`legacy`; carries a locally-set mountpoint literally for a non-root node;
omits the mountpoint entirely for a non-root node with an inherited
mountpoint; and always forces `canmount=noauto`. -/
theorem replicator_mountpoint_policy (p : Props) (cf : Str) (info : FsInfo) :
    (cf = [] →
      nvlistLookup (be_clone_props p cf info) mountpointKey = some legacyVal ∧
      nvlistLookup (be_send_props p cf info) mountpointKey = some legacyVal) ∧
    (cf ≠ [] → info.mpLocal = true →
      nvlistLookup (be_clone_props p cf info) mountpointKey = some info.mountpoint ∧
      nvlistLookup (be_send_props p cf info) mountpointKey = some info.mountpoint) ∧
    (cf ≠ [] → info.mpLocal = false →
      nvlistLookup (be_clone_props p cf info) mountpointKey = none ∧
      nvlistLookup (be_send_props p cf info) mountpointKey = none) ∧
    nvlistLookup (be_clone_props p cf info) canmountKey = some noautoVal ∧
    nvlistLookup (be_send_props p cf info) canmountKey = some noautoVal := by
  have hkk : ¬ mountpointKey = canmountKey := by decide
  refine ⟨?_, ?_, ?_, be_clone_props_canmount p cf info, be_send_props_canmount p cf info⟩
  · rintro rfl
    constructor
    · rw [be_clone_props_root, nvlistLookup_add_other _ _ _ _ hkk,
        nvlistLookup_add_self]
    · rw [be_send_props_root, nvlistLookup_add_other _ _ _ _ hkk,
        nvlistLookup_add_self]
  · intro hcf hl
    rcases cf with _ | ⟨c, cf⟩
    · exact absurd rfl hcf
    · constructor
      · rw [be_clone_props_nonroot, hl, if_pos rfl,
          nvlistLookup_add_other _ _ _ _ hkk, nvlistLookup_add_self]
      · rw [be_send_props_nonroot, hl, if_pos rfl,
          nvlistLookup_add_other _ _ _ _ hkk, nvlistLookup_add_self]
  · intro hcf hl
    rcases cf with _ | ⟨c, cf⟩
    · exact absurd rfl hcf
    · constructor
      · rw [be_clone_props_nonroot, hl]
        simp only [Bool.false_eq_true, if_false]
        rw [nvlistLookup_add_other _ _ _ _ hkk, nvlistLookup_removeAll]
      · rw [be_send_props_nonroot, hl]
        simp only [Bool.false_eq_true, if_false]
        rw [nvlistLookup_add_other _ _ _ _ hkk, nvlistLookup_removeAll]

/-- C4 witness: at the BE root with an empty incoming list, both variants set
mountpoint legacy. -/
theorem replicator_mountpoint_policy_witness :
    nvlistLookup (be_clone_props [] [] emptyFsInfo) mountpointKey = some legacyVal ∧
    nvlistLookup (be_send_props [] [] emptyFsInfo) mountpointKey = some legacyVal :=
  (replicator_mountpoint_policy [] [] emptyFsInfo).1 rfl

/-- C2 (refuting evaluation): with the source BE `be1` (children `var`), its
recursive snapshot `be2` present, and a substrate that fails the clone of the
child onto `rpool/ROOT/be2/var`, `be_clone_fs_callback` still returns 0: the
iteration result of line 1409 is discarded, so a failed child does not make
the replicator report failure, and the destination lacks the child. -/
theorem be_clone_fs_callback_swallows_child_failure :
    zfs_dataset_exists wSrcStateSnapped (("rpool/ROOT/be1/var").toList) = true ∧
    wEnv.cloneFails (("rpool/ROOT/be2/var").toList) = true ∧
    (be_clone_fs_callback wEnv wBt 5 (("rpool/ROOT/be1").toList)
      wSrcStateSnapped []).1 = 0 ∧
    zfs_dataset_exists
      (be_clone_fs_callback wEnv wBt 5 (("rpool/ROOT/be1").toList)
        wSrcStateSnapped []).2.1
      (("rpool/ROOT/be2/var").toList) = false := by decide

/-- C1 (refuting evaluation): the same-pool `be_copy` of `be1` to `be2`
reports success (status 0) although the substrate failed to clone the child
`var`: the destination's relative child-dataset paths are `[""]` while the
source's are `["", "/var"]`, so a successful copy does not guarantee equal
path sets. -/
theorem be_copy_samepool_missing_child :
    (be_copy wEnv wSrcState wCopyAttrs).1 = 0 ∧
    relPaths (be_copy wEnv wSrcState wCopyAttrs).2.1 (("rpool/ROOT/be2").toList) =
      [[]] ∧
    relPaths (be_copy wEnv wSrcState wCopyAttrs).2.1 (("rpool/ROOT/be1").toList) =
      [[], ("/var").toList] := by decide

/-- C5: destroying a BE whose root dataset is currently mounted fails with
status 1 and leaves the storage state completely unchanged: the mounted check
precedes every mutation of `be_destroy`. -/
theorem be_destroy_mounted_guard (env : Env) (st : ZfsState)
    (obe_name obe_zpool : Str) (info : FsInfo) (mp : Str)
    (hv : env.validName obe_name = true)
    (hfind : st.pools.find?
      (fun p => zfs_dataset_exists st (be_make_root_ds p obe_name)) = some obe_zpool)
    (hlook : fsLookup st (be_make_root_ds obe_zpool obe_name) = some info)
    (hmount : info.mountedAt = some mp) :
    be_destroy env st (some obe_name) = (1, st) := by
  rw [be_destroy]
  simp [hv, hfind, hlook, hmount]

/-- C5 witness: destroying the mounted `be1` fails and changes nothing. -/
theorem be_destroy_mounted_guard_witness :
    be_destroy wEnv wMountedState (some (("be1").toList)) = (1, wMountedState) :=
  be_destroy_mounted_guard wEnv wMountedState (("be1").toList) (("rpool").toList)
    { wRootInfo with mountedAt := some [slashChar] } [slashChar]
    (by decide) (by decide) (by decide) (by decide)

/-- C8: the scenario `init(new_BE_name="be1", new_BE_pool="rpool",
fs_list=["/","/var"], shared=["/export","/opt"])` on a pool without a
container but with `rpool/export` present succeeds and produces exactly: the
container `rpool/ROOT` (created first), `rpool/ROOT/be1` with mountpoint
legacy and canmount noauto, no dataset for the skipped `/` entry,
`rpool/ROOT/be1/var` with mountpoint `/var` and canmount noauto, and the
shared `rpool/opt` directly under the pool, while the already existing
`rpool/export` is not recreated. -/
theorem be_init_scenario :
    be_init wEnv wInitState wInitAttrs = (0, wInitExpected) := by decide

/-- C6: for an auto-named copy, the clone attempt plus retry policy of
`be_copy` makes at most `BE_AUTO_NAME_MAX_TRY` (`env.maxTry`) attempts, the
i-th under candidate name `autoName i`: if every candidate's root dataset is
already taken (each attempt reporting the distinguished `BE_ERR_EXISTS`), the
copy deterministically fails with status 1; and if the first free candidate
`autoName k` (k below the bound) is cloneable, the copy succeeds with exactly
that candidate name. -/
theorem be_copy_autoname_retry (env : Env) (f : Nat) (bt : BeTransactionData)
    (st : ZfsState) (props : Props)
    (hmax : 0 < env.maxTry)
    (hname : bt.nbe_name = env.autoName 0)
    (hroot0 : bt.nbe_root_ds = be_make_root_ds bt.nbe_zpool (env.autoName 0))
    (hsnap : snapExists st (bt.obe_root_ds ++ atChar :: bt.obe_snap_name) = true) :
    ((∀ i, i < env.maxTry →
        zfs_dataset_exists st (be_make_root_ds bt.nbe_zpool (env.autoName i)) = true) →
      (be_copy_retry env bt.obe_root_ds (f + 1) bt st props true).1 = 1) ∧
    (∀ k, k < env.maxTry →
      (∀ i, i < k →
        zfs_dataset_exists st (be_make_root_ds bt.nbe_zpool (env.autoName i)) = true) →
      zfs_dataset_exists st (be_make_root_ds bt.nbe_zpool (env.autoName k)) = false →
      env.cloneFails (be_make_root_ds bt.nbe_zpool (env.autoName k)) = false →
      (be_copy_retry env bt.obe_root_ds (f + 1) bt st props true).1 = 0 ∧
      (be_copy_retry env bt.obe_root_ds (f + 1) bt st props true).2.2.2.nbe_name =
        env.autoName k) := by
  constructor
  · intro htaken
    rw [be_copy_retry]
    have hex0 : zfs_dataset_exists st bt.nbe_root_ds = true := by
      rw [hroot0]
      exact htaken 0 hmax
    rw [clone_callback_root_eexists_at env bt f st props bt.obe_root_ds rfl hsnap hex0]
    simp only [BE_ERR_EXISTS]
    norm_num
    exact retry_loop_all_taken env bt.obe_root_ds f st (env.maxTry - 1) 1 bt _ rfl hsnap
      (fun j hj hj2 => htaken j hj2) (by omega)
  · intro k hk htaken hfree hcf
    rcases Nat.eq_zero_or_pos k with rfl | hkpos
    · rw [be_copy_retry]
      rcases hc : be_clone_fs_callback env bt (f + 1) bt.obe_root_ds st props with
        ⟨zret, st1, props1⟩
      have h0 : zret = 0 := by
        have hb : zfs_dataset_exists st bt.nbe_root_ds = false := by
          rw [hroot0]
          exact hfree
        have hcfb : env.cloneFails bt.nbe_root_ds = false := by
          rw [hroot0]
          exact hcf
        have := clone_callback_root_ok_at env bt f st props bt.obe_root_ds rfl hsnap hb hcfb
        rw [hc] at this
        exact this
      subst h0
      simp [hc, hname]
    · rw [be_copy_retry]
      have hex0 : zfs_dataset_exists st bt.nbe_root_ds = true := by
        rw [hroot0]
        exact htaken 0 hkpos
      rw [clone_callback_root_eexists_at env bt f st props bt.obe_root_ds rfl hsnap hex0]
      simp only [BE_ERR_EXISTS]
      norm_num
      exact retry_loop_first_free env bt.obe_root_ds f st (env.maxTry - 1) 1 bt _ k rfl
        hsnap hkpos hk (fun j hj hj2 => htaken j hj2) hfree hcf (by omega)

/-- C6 witness: with `BE_AUTO_NAME_MAX_TRY = 2`, candidate `auto0` taken and
`auto1` free, the retry succeeds under the name `auto1`. -/
theorem be_copy_autoname_retry_witness :
    (be_copy_retry wEnv wRetryBt.obe_root_ds (4 + 1) wRetryBt wRetryState [] true).1 = 0 ∧
    (be_copy_retry wEnv wRetryBt.obe_root_ds (4 + 1) wRetryBt wRetryState []
      true).2.2.2.nbe_name = wEnv.autoName 1 :=
  (be_copy_autoname_retry wEnv 4 wRetryBt wRetryState [] (by decide) (by decide)
    (by decide) (by decide)).2 1 (by decide)
    (fun i hi => by
      have h0 : i = 0 := by omega
      subst h0
      decide)
    (by decide) (by decide)

/-- C3: destroying a BE whose teardown succeeds and whose root had an origin
snapshot destroys that origin if and only if the origin's snapshot
name-component equals the destroyed BE's name and its dependent-clone count
after the teardown is zero; in every other case the origin is left in place
and the destroy still reports success (status 0). -/
theorem be_destroy_origin_cleanup (env : Env) (st : ZfsState)
    (obe_name obe_zpool : Str) (info : FsInfo) (origin parent snap : Str)
    (st1 : ZfsState)
    (hv : env.validName obe_name = true)
    (hfind : st.pools.find?
      (fun p => zfs_dataset_exists st (be_make_root_ds p obe_name)) = some obe_zpool)
    (hlook : fsLookup st (be_make_root_ds obe_zpool obe_name) = some info)
    (hmount : info.mountedAt = none)
    (horig : info.origin = some origin)
    (hsplit : be_get_snap origin = some (parent, snap))
    (htd : be_destroy_callback (st.fs.length + 1)
      (be_make_root_ds obe_zpool obe_name) st = (0, st1))
    (hosnap : snapExists st1 origin = true)
    (hparent : zfs_dataset_exists st1 parent = true) :
    (be_destroy env st (some obe_name)).1 = 0 ∧
    (snapExists (be_destroy env st (some obe_name)).2 origin = false ↔
      snap = obe_name ∧ numClones st1 origin = 0) := by
  rw [be_destroy]
  simp only [hv, hfind, hlook, hmount, horig, hsplit, htd]
  by_cases hsn : snap = obe_name
  · have hbeq : (snap == obe_name) = true := by simp [hsn]
    by_cases hnc : numClones st1 origin = 0
    · simp only [hbeq, hnc, hparent, hosnap]
      norm_num
      rw [snapExists_destroy_snaps_self st1 parent snap origin hsplit]
      simp [hsn, hnc]
    · simp only [hbeq, hnc, hparent, hosnap]
      norm_num
      simp [hosnap, hsn, hnc]
  · have hbeq : (snap == obe_name) = false := by simp [hsn]
    simp only [hbeq]
    norm_num
    simp [hosnap, hsn]

/-- C3 witness: destroying `be1`, a clone of `rpool/ROOT/be0@be1` with no
other dependents, reports success and removes the origin snapshot (the
name-component `be1` matches and numclones is zero after teardown). -/
theorem be_destroy_origin_cleanup_witness :
    (be_destroy wEnv wDestroyState (some (("be1").toList))).1 = 0 ∧
    (snapExists (be_destroy wEnv wDestroyState (some (("be1").toList))).2
        (("rpool/ROOT/be0@be1").toList) = false ↔
      ("be1").toList = ("be1").toList ∧
      numClones wDestroyTorn (("rpool/ROOT/be0@be1").toList) = 0) :=
  be_destroy_origin_cleanup wEnv wDestroyState (("be1").toList) (("rpool").toList)
    wCloneRootInfo (("rpool/ROOT/be0@be1").toList) (("rpool/ROOT/be0").toList)
    (("be1").toList) wDestroyTorn
    (by decide) (by decide) (by decide) (by decide) (by decide) (by decide)
    (by decide) (by decide) (by decide)

/-- C9: a copy that omits the new BE name but supplies an explicit destination
pool or an explicit snapshot name fails with status 1 before any snapshot,
dataset, or clone is created: the returned state is exactly the input state
and no output attribute is set. -/
theorem be_copy_autoname_requires_defaults (env : Env) (st : ZfsState)
    (attrs : CopyAttrs)
    (h1 : attrs.nbe_name = none)
    (h2 : attrs.nbe_zpool ≠ none ∨ attrs.obe_snap_name ≠ none) :
    be_copy env st attrs = (1, st, none, none) := by
  rw [be_copy]
  simp only [h1]
  have hnone : (if attrs.nbe_zpool.isSome = true then (none : Option (Str × Bool))
      else if attrs.obe_snap_name.isSome = true then none
      else some (env.autoName 0, true)) = none := by
    rcases h2 with h2 | h2
    · simp [Option.isSome_iff_ne_none.mpr h2]
    · cases hps : attrs.nbe_zpool.isSome <;>
        simp [hps, Option.isSome_iff_ne_none.mpr h2]
  split
  · rfl
  · split
    · rfl
    · rw [hnone]

/-- C9 witness: requesting an auto-named copy with an explicit destination
pool fails and leaves the state untouched. -/
theorem be_copy_autoname_requires_defaults_witness :
    be_copy wEnv wSrcState wBadCopyAttrs = (1, wSrcState, none, none) :=
  be_copy_autoname_requires_defaults wEnv wSrcState wBadCopyAttrs (by decide)
    (Or.inl (by decide))

/-- C7: a second `be_init` with the same attributes after a successful first
one fails (the BE already exists in a pool) and performs no mutation: the
state after the second call is exactly the state the first call produced. -/
theorem be_init_twice_fails (env : Env) (st st1 : ZfsState) (attrs : InitAttrs)
    (h : be_init env st attrs = (0, st1)) :
    be_init env st1 attrs = (1, st1) := by
  rw [be_init] at h
  rcases hn : attrs.nbe_name with _ | nbe_name
  · simp only [hn] at h
    exact absurd h (by simp)
  simp only [hn] at h
  by_cases hv : env.validName nbe_name = true
  swap
  · rw [if_pos hv] at h
    exact absurd h (by simp)
  rw [if_neg (not_not_intro hv)] at h
  rcases hz : attrs.nbe_zpool with _ | nbe_zpool
  · simp only [hz] at h
    exact absurd h (by simp)
  simp only [hz] at h
  rcases hfa : attrs.fs_attrs with _ | ⟨fs_num, fs_names⟩
  · simp only [hfa] at h
    exact absurd h (by simp)
  simp only [hfa] at h
  by_cases hlen : fs_names.length = fs_num
  swap
  · rw [if_pos hlen] at h
    exact absurd h (by simp)
  rw [if_neg (not_not_intro hlen)] at h
  by_cases hslen : (attrs.shared_attrs.getD (0, [])).2.length =
      (attrs.shared_attrs.getD (0, [])).1
  swap
  · rw [if_pos hslen] at h
    exact absurd h (by simp)
  rw [if_neg (not_not_intro hslen)] at h
  by_cases hpool : st.pools.any (fun p => p == nbe_zpool) = true
  swap
  · rw [if_pos hpool] at h
    exact absurd h (by simp)
  rw [if_neg (not_not_intro hpool)] at h
  rcases hcds : be_create_container_ds st nbe_zpool with _ | stc
  · simp only [hcds] at h
    exact absurd h (by simp)
  simp only [hcds] at h
  by_cases hex : stc.pools.any
      (fun p => zfs_dataset_exists stc (be_make_root_ds p nbe_name)) = true
  · rw [if_pos hex] at h
    exact absurd h (by simp)
  rw [if_neg hex] at h
  rcases hcr : zfs_create stc (be_make_root_ds nbe_zpool nbe_name)
      (nvlistAddString (nvlistAddString (attrs.zfs_props.getD [])
        mountpointKey legacyVal) canmountKey noautoVal) with _ | str0
  · simp only [hcr] at h
    exact absurd h (by simp)
  simp only [hcr] at h
  rcases hl1 : be_init_fs_loop (be_make_root_ds nbe_zpool nbe_name) fs_names str0
      (nvlistAddString (nvlistAddString (attrs.zfs_props.getD [])
        mountpointKey legacyVal) canmountKey noautoVal) with ⟨r1, stl1, pl1⟩
  simp only [hl1] at h
  by_cases hr1 : r1 = 0
  swap
  · rw [if_pos hr1] at h
    exact absurd h (by simp)
  rw [if_neg (not_not_intro hr1)] at h
  rcases hl2 : be_init_shared_loop nbe_zpool (attrs.shared_attrs.getD (0, [])).2
      stl1 [] with ⟨r2, stl2, pl2⟩
  simp only [hl2] at h
  by_cases hr2 : r2 = 0
  swap
  · rw [if_pos hr2] at h
    exact absurd h (by simp)
  rw [if_neg (not_not_intro hr2)] at h
  obtain rfl : stl2 = st1 := by simpa using h
  -- facts carried into the second run
  have hpools1 : stl1.pools = st.pools := by
    have e1 := be_init_fs_loop_pools (be_make_root_ds nbe_zpool nbe_name) fs_names str0
      (nvlistAddString (nvlistAddString (attrs.zfs_props.getD [])
        mountpointKey legacyVal) canmountKey noautoVal)
    rw [hl1] at e1
    rw [e1, zfs_create_pools stc str0 _ _ hcr,
      be_create_container_ds_pools st stc nbe_zpool hcds]
  have hpools : stl2.pools = st.pools := by
    have e2 := be_init_shared_loop_pools nbe_zpool (attrs.shared_attrs.getD (0, [])).2
      stl1 []
    rw [hl2] at e2
    rw [e2, hpools1]
  have hcont : zfs_dataset_exists stl2 (be_make_container_ds nbe_zpool) = true := by
    have c1 := be_create_container_ds_self st stc nbe_zpool hcds
    have c2 := zfs_create_mono stc str0 _ _ _ hcr c1
    have c3 := be_init_fs_loop_mono (be_make_root_ds nbe_zpool nbe_name) fs_names _
      str0 (nvlistAddString (nvlistAddString (attrs.zfs_props.getD [])
        mountpointKey legacyVal) canmountKey noautoVal) c2
    rw [hl1] at c3
    have c4 := be_init_shared_loop_mono nbe_zpool (attrs.shared_attrs.getD (0, [])).2
      _ stl1 [] c3
    rw [hl2] at c4
    exact c4
  have hroot : zfs_dataset_exists stl2 (be_make_root_ds nbe_zpool nbe_name) = true := by
    have c2 := zfs_create_self stc str0 _ _ hcr
    have c3 := be_init_fs_loop_mono (be_make_root_ds nbe_zpool nbe_name) fs_names _
      str0 (nvlistAddString (nvlistAddString (attrs.zfs_props.getD [])
        mountpointKey legacyVal) canmountKey noautoVal) c2
    rw [hl1] at c3
    have c4 := be_init_shared_loop_mono nbe_zpool (attrs.shared_attrs.getD (0, [])).2
      _ stl1 [] c3
    rw [hl2] at c4
    exact c4
  have hmem : nbe_zpool ∈ stl2.pools := by
    rw [hpools]
    rw [List.any_eq_true] at hpool
    obtain ⟨p, hp, hpe⟩ := hpool
    obtain rfl : p = nbe_zpool := by simpa using hpe
    exact hp
  -- the second run
  rw [be_init]
  simp only [hn]
  rw [if_neg (not_not_intro hv)]
  simp only [hz, hfa]
  rw [if_neg (not_not_intro hlen), if_neg (not_not_intro hslen)]
  have hpool2 : stl2.pools.any (fun p => p == nbe_zpool) = true := by
    rw [List.any_eq_true]
    exact ⟨nbe_zpool, hmem, by simp⟩
  rw [if_neg (not_not_intro hpool2)]
  simp only [be_create_container_ds_of_exists stl2 nbe_zpool hcont]
  have hex2 : stl2.pools.any
      (fun p => zfs_dataset_exists stl2 (be_make_root_ds p nbe_name)) = true := by
    rw [List.any_eq_true]
    exact ⟨nbe_zpool, hmem, hroot⟩
  rw [if_pos hex2]

/-- C7 witness: initializing `be1` twice in `rpool` with identical attributes
fails the second time and keeps the hierarchy the first call produced. -/
theorem be_init_twice_fails_witness :
    be_init wEnv wInitState1 wInitAttrs = (1, wInitState1) :=
  be_init_twice_fails wEnv wInitState wInitState1 wInitAttrs (by decide)
